import Mathlib

/-!
Verification of the multi-provider checkout orchestration of the
near-merch-store repository: a shallow embedding of the checkout service
(`getQuote`, `createCheckout` in `src/api/src/services/checkout.ts`), the
order store records (`src/api/src/store/orders.ts`) and the abandoned-draft
sweeper (`cleanupAbandonedDrafts`), with theorems about quote aggregation,
checkout failure behaviour and sweeper outcomes.

Monetary amounts are modelled as rationals (the source uses JS numbers in
major currency units).  External asynchronous calls (`productStore.find`,
`provider.client.quoteOrder` / `createOrder` / `cancelOrder`,
`paymentProvider.client.createCheckout`) are modelled as explicit functions
supplied through the environment; fallible calls return `Except String`.
The insertion-ordered JS `Map` used to group cart items by provider is
modelled as an association list preserving insertion order.  The embedding
of `getQuote` additionally returns the list of provider names whose gateway
`quoteOrder` was invoked (an event trace used to state that the synthetic
"manual" bucket performs no external call).
-/

namespace MerchStore

/-- Cart item input to quote/checkout (`QuoteItemInputSchema`):
`{productId, variantId?, quantity}`. -/
structure QuoteItemInput where
  productId : String
  variantId : Option String
  quantity : Nat
deriving DecidableEq

/-- Opaque per-variant fulfillment binding (`FulfillmentConfigSchema` plus the
`providerData` fields read by `mapToFulfillmentItems`). -/
structure FulfillmentConfig where
  externalVariantId : Option String
  catalogProductId : Option Nat
  catalogVariantId : Option Nat
  designFiles : List (String × Option String)
deriving DecidableEq

/-- Product variant (`ProductVariantSchema`): fields consumed by the
checkout service. -/
structure ProductVariant where
  id : String
  title : String
  price : ℚ
  currency : String
  fulfillmentConfig : Option FulfillmentConfig
deriving DecidableEq

/-- Product (`ProductSchema`): fields consumed by the checkout service.
`images` keeps the image urls (the service reads `product.images?.[0]?.url`). -/
structure Product where
  id : String
  title : String
  description : Option String
  price : ℚ
  currency : String
  fulfillmentProvider : String
  images : List String
  variants : List ProductVariant
deriving DecidableEq

/-- Shipping address (`ShippingAddressSchema`). -/
structure ShippingAddress where
  companyName : Option String
  firstName : String
  lastName : String
  addressLine1 : String
  addressLine2 : Option String
  city : String
  state : String
  postCode : String
  country : String
  email : String
  phone : Option String
deriving DecidableEq

/-- Recipient shape produced by `buildRecipient` and sent to fulfillment
gateways. -/
structure Recipient where
  name : String
  company : Option String
  address1 : String
  address2 : Option String
  city : String
  stateCode : String
  countryCode : String
  zip : String
  phone : Option String
  email : String
deriving DecidableEq

/-- `buildRecipient` from the checkout service. -/
def buildRecipient (address : ShippingAddress) : Recipient :=
  { name := address.firstName ++ " " ++ address.lastName
    company := address.companyName
    address1 := address.addressLine1
    address2 := address.addressLine2
    city := address.city
    stateCode := address.state
    countryCode := address.country
    zip := address.postCode
    phone := address.phone
    email := address.email }

/-- Item reference sent to a fulfillment gateway (`FulfillmentOrderItemSchema`
fields produced by `mapToFulfillmentItems`). -/
structure FulfillmentOrderItem where
  externalVariantId : Option String
  productId : Option Nat
  variantId : Option Nat
  quantity : Nat
  files : Option (List (String × Option String))
deriving DecidableEq

/-- A shipping rate returned by a gateway (`ShippingRateSchema`); the
delivery-day bounds are independently optional. -/
structure ShippingRate where
  id : String
  name : String
  rate : ℚ
  currency : String
  minDeliveryDays : Option Nat
  maxDeliveryDays : Option Nat
deriving DecidableEq

/-- Gateway quote result (`ShippingQuoteOutputSchema`). -/
structure ShippingQuoteOutput where
  rates : List ShippingRate
  currency : String
deriving DecidableEq

/-- Arguments of `provider.client.quoteOrder` as called by `getQuote`. -/
structure QuoteOrderArgs where
  recipient : Recipient
  items : List FulfillmentOrderItem
  currency : String
deriving DecidableEq

/-- Arguments of `provider.client.createOrder` as called by
`createCheckout` (`retailCosts: { currency }`). -/
structure CreateOrderArgs where
  externalId : String
  recipient : Recipient
  items : List FulfillmentOrderItem
  retailCurrency : String
deriving DecidableEq

/-- Result of `provider.client.createOrder`. -/
structure CreatedDraft where
  id : String
  status : String
deriving DecidableEq

/-- A fulfillment provider gateway: the capability surface consumed by the
orchestrator, each call modelled as a function returning `Except`. -/
structure ProviderGateway where
  quoteOrder : QuoteOrderArgs → Except String ShippingQuoteOutput
  createOrder : CreateOrderArgs → Except String CreatedDraft
  cancelOrder : String → Except String Unit

/-- Payment line item (`PaymentLineItem`): `unitAmount` is in minor units. -/
structure PaymentLineItem where
  name : String
  description : Option String
  image : Option String
  unitAmount : ℤ
  quantity : Nat
deriving DecidableEq

/-- Arguments of `paymentProvider.client.createCheckout`.  The session
metadata embeds the serialized draft-order-id map; we keep the map itself. -/
structure PaymentCheckoutArgs where
  orderId : String
  amount : ℤ
  currency : String
  items : List PaymentLineItem
  successUrl : String
  cancelUrl : String
  metadataDraftOrderIds : List (String × String)
deriving DecidableEq

/-- Result of `paymentProvider.client.createCheckout`. -/
structure PaymentSession where
  sessionId : String
  url : String
deriving DecidableEq

/-- Payment gateway capability surface. -/
structure PaymentGateway where
  createCheckout : PaymentCheckoutArgs → Except String PaymentSession

/-- The runtime plugin registry: provider name → gateway (`undefined` when the
provider is not configured), and payment provider name → payment gateway. -/
structure MarketplaceRuntime where
  getProvider : String → Option ProviderGateway
  getPaymentProvider : String → Option PaymentGateway

/-- `JS Math.round` on a rational: round half toward positive infinity. -/
def jsRound (x : ℚ) : ℤ := ⌊x + (1 : ℚ) / 2⌋

/-- One resolved cart item inside a provider bucket (`ProviderItemGroup`). -/
structure ProviderItemGroup where
  item : QuoteItemInput
  productId : String
  variantId : Option String
  price : ℚ
  currency : String
  fulfillmentConfig : Option FulfillmentConfig
  productTitle : String
  productDescription : Option String
  productImage : Option String
  fulfillmentProvider : String
deriving DecidableEq

/-- Insertion-ordered grouping map update: JS `Map.get(k).push(g)` /
`Map.set(k, [g])` semantics on an association list. -/
def insertGroup (m : List (String × List ProviderItemGroup)) (k : String)
    (g : ProviderItemGroup) : List (String × List ProviderItemGroup) :=
  match m with
  | [] => [(k, [g])]
  | (k', gs) :: rest =>
      if k' = k then (k', gs ++ [g]) :: rest else (k', gs) :: insertGroup rest k g

/-- Provider bucket key: `product.fulfillmentProvider || 'manual'` (JS `||`
maps the empty string to `"manual"` as well). -/
def providerKey (product : Product) : String :=
  if product.fulfillmentProvider = "" then "manual" else product.fulfillmentProvider

/-- The item-resolution loop shared verbatim by `getQuote` and
`createCheckout`: resolve each cart item's product and variant, accumulate
the subtotal and group the items by fulfillment provider.  Fails on the first
unresolvable `productId`.  A `variantId` that matches no variant of the
product is not rejected: the price falls back to `product.price` and no
variant `fulfillmentConfig` is carried.  (JS truthiness: an empty-string
`variantId` selects the first variant like an absent one.) -/
def resolveItems (find : String → Option Product) :
    List QuoteItemInput → ℚ → List (String × List ProviderItemGroup) →
    Except String (ℚ × List (String × List ProviderItemGroup))
  | [], subtotal, groups => .ok (subtotal, groups)
  | item :: rest, subtotal, groups =>
    match find item.productId with
    | none => .error ("Product not found: " ++ item.productId)
    | some product =>
      let selectedVariant : Option ProductVariant :=
        match item.variantId with
        | some vid =>
          if vid = "" then product.variants.head?
          else product.variants.find? (fun v => v.id == vid)
        | none => product.variants.head?
      let unitPrice : ℚ :=
        match selectedVariant with
        | some v => v.price
        | none => product.price
      let group : ProviderItemGroup :=
        { item := item
          productId := product.id
          variantId := selectedVariant.map (fun v => v.id)
          price := unitPrice
          currency :=
            match selectedVariant with
            | some v => v.currency
            | none => product.currency
          fulfillmentConfig := selectedVariant.bind (fun v => v.fulfillmentConfig)
          productTitle := product.title
          productDescription := product.description
          productImage := product.images.head?
          fulfillmentProvider := product.fulfillmentProvider }
      resolveItems find rest (subtotal + unitPrice * (item.quantity : ℚ))
        (insertGroup groups (providerKey product) group)

/-- `mapToFulfillmentItems` from the checkout service. -/
def mapToFulfillmentItems (providerItems : List ProviderItemGroup) :
    List FulfillmentOrderItem :=
  providerItems.map fun pi =>
    { externalVariantId := pi.fulfillmentConfig.bind (fun c => c.externalVariantId)
      productId := pi.fulfillmentConfig.bind (fun c => c.catalogProductId)
      variantId := pi.fulfillmentConfig.bind (fun c => c.catalogVariantId)
      quantity := pi.item.quantity
      files := pi.fulfillmentConfig.map (fun c => c.designFiles) }

/-- A customer-facing shipping option (`ProviderShippingOptionSchema`). -/
structure ProviderShippingOption where
  provider : String
  rateId : String
  rateName : String
  shippingCost : ℚ
  currency : String
  minDeliveryDays : Option Nat
  maxDeliveryDays : Option Nat
deriving DecidableEq

/-- Per-provider quote breakdown (`ProviderBreakdownSchema`). -/
structure ProviderBreakdown where
  provider : String
  itemCount : Nat
  subtotal : ℚ
  selectedShipping : ProviderShippingOption
  availableRates : List ProviderShippingOption
deriving DecidableEq

/-- Aggregated delivery estimate; the source only constructs it when both
bounds are defined. -/
structure DeliveryEstimate where
  minDays : Nat
  maxDays : Nat
deriving DecidableEq

/-- Quote result (`QuoteOutputSchema`). -/
structure QuoteOutput where
  subtotal : ℚ
  shippingCost : ℚ
  total : ℚ
  currency : String
  providerBreakdown : List ProviderBreakdown
  estimatedDelivery : Option DeliveryEstimate
deriving DecidableEq

/-- The flat rate synthesized for the `"manual"` bucket. -/
def manualShipping : ProviderShippingOption :=
  { provider := "manual"
    rateId := "manual-standard"
    rateName := "Standard Shipping"
    shippingCost := 0
    currency := "USD"
    minDeliveryDays := some 5
    maxDeliveryDays := some 10 }

/-- `providerItems.reduce((sum, pi) => sum + pi.price * pi.item.quantity, 0)`. -/
def bucketSubtotal (providerItems : List ProviderItemGroup) : ℚ :=
  providerItems.foldl (fun sum pi => sum + pi.price * (pi.item.quantity : ℚ)) 0

/-- `rates.reduce((cheapest, rate) => rate.rate < cheapest.rate ? rate : cheapest)`:
JS `reduce` with no initial value on a non-empty list. -/
def selectCheapest (first : ShippingRate) (rest : List ShippingRate) : ShippingRate :=
  rest.foldl (fun cheapest rate => if rate.rate < cheapest.rate then rate else cheapest) first

/-- Conversion of a gateway rate to a customer-facing shipping option,
as inlined twice in `getQuote` (for `availableRates` and `selectedShipping`). -/
def rateToOption (providerName : String) (rate : ShippingRate) : ProviderShippingOption :=
  { provider := providerName
    rateId := rate.id
    rateName := rate.name
    shippingCost := rate.rate
    currency := rate.currency
    minDeliveryDays := rate.minDeliveryDays
    maxDeliveryDays := rate.maxDeliveryDays }

/-- The running-minimum update on the aggregated `minDeliveryDays`
(`if (d !== undefined) { if (min === undefined || d < min) min = d }`). -/
def mergeMin (cur : Option Nat) (d : Option Nat) : Option Nat :=
  match d with
  | none => cur
  | some dd =>
    match cur with
    | none => some dd
    | some m => if dd < m then some dd else some m

/-- The running-maximum update on the aggregated `maxDeliveryDays`. -/
def mergeMax (cur : Option Nat) (d : Option Nat) : Option Nat :=
  match d with
  | none => cur
  | some dd =>
    match cur with
    | none => some dd
    | some m => if dd > m then some dd else some m

/-- Accumulator of the per-bucket quoting loop of `getQuote`.  `calls` is the
event trace of provider names whose gateway `quoteOrder` was invoked. -/
structure QuoteAcc where
  breakdown : List ProviderBreakdown
  shippingCost : ℚ
  minDeliveryDays : Option Nat
  maxDeliveryDays : Option Nat
  calls : List String

/-- The per-bucket loop of `getQuote`: for each provider bucket either
synthesize the flat `"manual"` rate (when no gateway is configured for it),
fail on an unconfigured non-manual provider, or call the gateway, fail on a
call error or an empty rate list, and otherwise select the cheapest rate. -/
def quoteBuckets (runtime : MarketplaceRuntime) (address : ShippingAddress) :
    List (String × List ProviderItemGroup) → QuoteAcc → Except String QuoteAcc
  | [], acc => .ok acc
  | (providerName, providerItems) :: rest, acc =>
    match runtime.getProvider providerName with
    | none =>
      if providerName = "manual" then
        let bd : ProviderBreakdown :=
          { provider := "manual"
            itemCount := providerItems.length
            subtotal := bucketSubtotal providerItems
            selectedShipping := manualShipping
            availableRates := [manualShipping] }
        quoteBuckets runtime address rest
          { breakdown := acc.breakdown ++ [bd]
            shippingCost := acc.shippingCost
            minDeliveryDays := mergeMin acc.minDeliveryDays manualShipping.minDeliveryDays
            maxDeliveryDays := mergeMax acc.maxDeliveryDays manualShipping.maxDeliveryDays
            calls := acc.calls }
      else .error ("Provider not configured: " ++ providerName)
    | some gateway =>
      match gateway.quoteOrder
          { recipient := buildRecipient address
            items := mapToFulfillmentItems providerItems
            currency := "USD" } with
      | .error e => .error ("Failed to get quote from " ++ providerName ++ ": " ++ e)
      | .ok quoteResult =>
        match quoteResult.rates with
        | [] => .error ("No shipping rates available from " ++ providerName)
        | first :: more =>
          let selectedRate := selectCheapest first more
          let bd : ProviderBreakdown :=
            { provider := providerName
              itemCount := providerItems.length
              subtotal := bucketSubtotal providerItems
              selectedShipping := rateToOption providerName selectedRate
              availableRates := (first :: more).map (rateToOption providerName) }
          quoteBuckets runtime address rest
            { breakdown := acc.breakdown ++ [bd]
              shippingCost := acc.shippingCost + selectedRate.rate
              minDeliveryDays := mergeMin acc.minDeliveryDays selectedRate.minDeliveryDays
              maxDeliveryDays := mergeMax acc.maxDeliveryDays selectedRate.maxDeliveryDays
              calls := acc.calls ++ [providerName] }

/-- `getQuote(items, address)` of the checkout service.  Besides the quote it
returns the event trace of gateway `quoteOrder` calls. -/
def getQuote (find : String → Option Product) (runtime : MarketplaceRuntime)
    (items : List QuoteItemInput) (address : ShippingAddress) :
    Except String (QuoteOutput × List String) :=
  match resolveItems find items 0 [] with
  | .error e => .error e
  | .ok (totalSubtotal, groups) =>
    match quoteBuckets runtime address groups ⟨[], 0, none, none, []⟩ with
    | .error e => .error e
    | .ok acc =>
      .ok
        ({ subtotal := totalSubtotal
           shippingCost := acc.shippingCost
           total := totalSubtotal + acc.shippingCost
           currency := "USD"
           providerBreakdown := acc.breakdown
           estimatedDelivery :=
             match acc.minDeliveryDays, acc.maxDeliveryDays with
             | some mn, some mx => some ⟨mn, mx⟩
             | _, _ => none },
         acc.calls)

/-- Order lifecycle status (`OrderStatusSchema`). -/
inductive OrderStatus where
  | pending
  | draft_created
  | paid
  | paid_pending_fulfillment
  | processing
  | shipped
  | delivered
  | cancelled
  | partially_cancelled
  | refunded
deriving DecidableEq

/-- A persisted order line item (fields the checkout service fills in). -/
structure OrderItemRec where
  productId : String
  variantId : Option String
  productName : String
  quantity : Nat
  unitPrice : ℚ
  fulfillmentProvider : String
  fulfillmentConfig : Option FulfillmentConfig
deriving DecidableEq

/-- The persisted order record managed by the order store.  `draftOrderIds`
is `none` until `updateDraftOrderIds` persists the map (the database column
is nullable and `rowToOrder` surfaces `null` as `undefined`). -/
structure OrderRecord where
  id : String
  userId : String
  status : OrderStatus
  totalAmount : ℚ
  currency : String
  checkoutSessionId : Option String
  checkoutProvider : Option String
  draftOrderIds : Option (List (String × String))
  items : List OrderItemRec
deriving DecidableEq

/-- Association-list lookup modelling a JS `Record<string, string>` read. -/
def lookupStr (m : List (String × String)) (k : String) : Option String :=
  match m with
  | [] => none
  | (k', v) :: rest => if k' = k then some v else lookupStr rest k

/-- Input of `createCheckout` (`CreateCheckoutParams`); `selectedRates` maps
provider name to the chosen rate id. -/
structure CreateCheckoutParams where
  userId : String
  items : List QuoteItemInput
  address : ShippingAddress
  selectedRates : List (String × String)
  shippingCost : ℚ
  successUrl : String
  cancelUrl : String

/-- Success payload of `createCheckout` (`CreateCheckoutOutput`). -/
structure CreateCheckoutOutput where
  orderId : String
  checkoutSessionId : String
  checkoutUrl : String
  draftOrderIds : List (String × String)
deriving DecidableEq

/-- Result of the per-provider draft-creation loop; on failure it keeps the
draft ids accumulated before the failing call (those remote draft orders
were already created and are not rolled back). -/
inductive DraftResult where
  | ok (drafts : List (String × String))
  | fail (msg : String) (drafts : List (String × String))

/-- The draft-creation loop of `createCheckout`: for each provider bucket,
first verify a truthy `selectedRates` entry exists — JS `!selectedRateId`
treats a missing and an empty-string entry alike (this check precedes the
`"manual"` skip in the source, so the `"manual"` bucket is checked too),
skip `"manual"`, then create a draft order at the configured gateway,
accumulating `draftOrderIds[provider] = draftOrder.id` per success. -/
def createDrafts (runtime : MarketplaceRuntime) (address : ShippingAddress)
    (orderId : String) (selectedRates : List (String × String)) :
    List (String × List ProviderItemGroup) → List (String × String) → DraftResult
  | [], acc => .ok acc
  | (providerName, providerItems) :: rest, acc =>
    match lookupStr selectedRates providerName with
    | none => .fail ("No shipping rate selected for provider: " ++ providerName) acc
    | some selectedRateId =>
      if selectedRateId = "" then
        .fail ("No shipping rate selected for provider: " ++ providerName) acc
      else if providerName = "manual" then
        createDrafts runtime address orderId selectedRates rest acc
      else
        match runtime.getProvider providerName with
        | none => .fail ("Provider not configured: " ++ providerName) acc
        | some gateway =>
          match gateway.createOrder
              { externalId := orderId
                recipient := buildRecipient address
                items := mapToFulfillmentItems providerItems
                retailCurrency := "USD" } with
          | .error e =>
            .fail ("Failed to create draft order at " ++ providerName ++ ": " ++ e) acc
          | .ok draftOrder =>
            createDrafts runtime address orderId selectedRates rest
              (acc ++ [(providerName, draftOrder.id)])

/-- Observable outcome of one `createCheckout` call: the caller-visible
result, the order record as persisted by the order store after the call
(`none` when the call failed before `orderStore.create`), and the draft
orders actually created at remote providers during the call. -/
structure CheckoutOutcome where
  result : Except String CreateCheckoutOutput
  savedOrder : Option OrderRecord
  remoteDrafts : List (String × String)

/-- `createCheckout(params)` of the checkout service.  `orderId` stands for
the UUID generated by `orderStore.create`.  The store mutations are applied
in source order: create (status `pending`), then — only after the payment
session succeeds — `updateCheckout`, `updateDraftOrderIds` and
`updateStatus('draft_created')`. -/
def createCheckout (find : String → Option Product) (runtime : MarketplaceRuntime)
    (orderId : String) (p : CreateCheckoutParams) : CheckoutOutcome :=
  match resolveItems find p.items 0 [] with
  | .error e => { result := .error e, savedOrder := none, remoteDrafts := [] }
  | .ok (totalSubtotal, groups) =>
    let totalAmount := totalSubtotal + p.shippingCost
    let orderItems : List OrderItemRec :=
      ((groups.map fun g => g.2).flatten).map fun pi =>
        { productId := pi.productId
          variantId := pi.variantId
          productName := pi.productTitle
          quantity := pi.item.quantity
          unitPrice := pi.price
          fulfillmentProvider := pi.fulfillmentProvider
          fulfillmentConfig := pi.fulfillmentConfig }
    let order0 : OrderRecord :=
      { id := orderId
        userId := p.userId
        status := .pending
        totalAmount := totalAmount
        currency := "USD"
        checkoutSessionId := none
        checkoutProvider := none
        draftOrderIds := none
        items := orderItems }
    match createDrafts runtime p.address orderId p.selectedRates groups [] with
    | .fail e drafts => { result := .error e, savedOrder := some order0, remoteDrafts := drafts }
    | .ok draftOrderIds =>
      match runtime.getPaymentProvider "stripe" with
      | none =>
        { result := .error "Payment provider not configured"
          savedOrder := some order0
          remoteDrafts := draftOrderIds }
      | some paymentProvider =>
        let baseLineItems : List PaymentLineItem :=
          ((groups.map fun g => g.2).flatten).map fun pi =>
            { name := pi.productTitle
              description := pi.productDescription
              image := pi.productImage
              unitAmount := jsRound (pi.price * 100)
              quantity := pi.item.quantity }
        let lineItems : List PaymentLineItem :=
          if p.shippingCost > 0 then
            baseLineItems ++
              [{ name := "Shipping"
                 description := none
                 image := none
                 unitAmount := jsRound (p.shippingCost * 100)
                 quantity := 1 }]
          else baseLineItems
        match paymentProvider.createCheckout
            { orderId := orderId
              amount := jsRound (totalAmount * 100)
              currency := "USD"
              items := lineItems
              successUrl := p.successUrl
              cancelUrl := p.cancelUrl
              metadataDraftOrderIds := draftOrderIds } with
        | .error e =>
          { result := .error ("Failed to create payment checkout: " ++ e)
            savedOrder := some order0
            remoteDrafts := draftOrderIds }
        | .ok checkout =>
          let order3 : OrderRecord :=
            { order0 with
                checkoutSessionId := some checkout.sessionId
                checkoutProvider := some "stripe"
                draftOrderIds := some draftOrderIds
                status := .draft_created }
          { result := .ok
              { orderId := orderId
                checkoutSessionId := checkout.sessionId
                checkoutUrl := checkout.url
                draftOrderIds := draftOrderIds }
            savedOrder := some order3
            remoteDrafts := draftOrderIds }

/-! ### Abandonment sweeper (`cleanupAbandonedDrafts`) -/

/-- Per-provider cancellation attempt result inside the sweeper. -/
structure CancelOutcome where
  provider : String
  success : Bool
  error : Option String
deriving DecidableEq

/-- One entry of the sweeper's `errors` list. -/
structure CleanupError where
  orderId : String
  provider : String
  error : String
deriving DecidableEq

/-- The sweeper's per-draft cancellation loop: each provider in the order's
`draftOrderIds` map is attempted independently; an unconfigured provider or
a failed `cancelOrder` call is captured as a non-fatal failure. -/
def cancelDrafts (runtime : MarketplaceRuntime) (drafts : List (String × String)) :
    List CancelOutcome :=
  drafts.map fun pd =>
    match runtime.getProvider pd.1 with
    | none => { provider := pd.1, success := false, error := some "Provider not found" }
    | some gateway =>
      match gateway.cancelOrder pd.2 with
      | .ok _ => { provider := pd.1, success := true, error := none }
      | .error e => { provider := pd.1, success := false, error := some e }

/-- Outcome of processing one abandoned order: the order record after any
status update, the counter increments, and the error entries produced. -/
structure SweepOutcome where
  order : OrderRecord
  cancelledDelta : Nat
  partiallyCancelledDelta : Nat
  failedDelta : Nat
  errors : List CleanupError
deriving DecidableEq

/-- Processing of one abandoned order inside `cleanupAbandonedDrafts`:
no recorded draft ids ⇒ mark `cancelled`; otherwise attempt every
cancellation, then mark `cancelled` when all succeeded,
`partially_cancelled` when some did, and leave the status untouched
(counting the order as failed) when none did.  Every failed attempt yields
one error entry naming the order and the provider. -/
def processAbandonedOrder (runtime : MarketplaceRuntime) (order : OrderRecord) :
    SweepOutcome :=
  let drafts := order.draftOrderIds.getD []
  if drafts.isEmpty then
    { order := { order with status := .cancelled }
      cancelledDelta := 1, partiallyCancelledDelta := 0, failedDelta := 0
      errors := [] }
  else
    let results := cancelDrafts runtime drafts
    let errs : List CleanupError :=
      results.filterMap fun r =>
        if r.success then none
        else some { orderId := order.id, provider := r.provider
                    error := r.error.getD "Unknown error" }
    if results.all (fun r => r.success) then
      { order := { order with status := .cancelled }
        cancelledDelta := 1, partiallyCancelledDelta := 0, failedDelta := 0
        errors := errs }
    else if results.any (fun r => r.success) then
      { order := { order with status := .partially_cancelled }
        cancelledDelta := 0, partiallyCancelledDelta := 1, failedDelta := 0
        errors := errs }
    else
      { order := order
        cancelledDelta := 0, partiallyCancelledDelta := 0, failedDelta := 1
        errors := errs }

/-- The sweeper's aggregate result (`CleanupResult`). -/
structure CleanupResult where
  totalProcessed : Nat
  cancelled : Nat
  partiallyCancelled : Nat
  failed : Nat
  errors : List CleanupError
deriving DecidableEq

/-- `cleanupAbandonedDrafts` over the fetched abandoned orders: fold the
per-order processing, accumulating counters, errors and the updated order
records. -/
def cleanupAbandonedDrafts (runtime : MarketplaceRuntime)
    (abandonedOrders : List OrderRecord) : CleanupResult × List OrderRecord :=
  let step := fun (st : CleanupResult × List OrderRecord) (order : OrderRecord) =>
    let out := processAbandonedOrder runtime order
    ({ totalProcessed := st.1.totalProcessed + 1
       cancelled := st.1.cancelled + out.cancelledDelta
       partiallyCancelled := st.1.partiallyCancelled + out.partiallyCancelledDelta
       failed := st.1.failed + out.failedDelta
       errors := st.1.errors ++ out.errors },
     st.2 ++ [out.order])
  abandonedOrders.foldl step (⟨0, 0, 0, 0, []⟩, [])

/-! ### General lemmas -/

instance {ε α : Type} [DecidableEq ε] [DecidableEq α] : DecidableEq (Except ε α)
  | .ok a, .ok b =>
    if h : a = b then .isTrue (by rw [h]) else .isFalse (by intro hc; cases hc; exact h rfl)
  | .ok _, .error _ => .isFalse (by intro hc; cases hc)
  | .error _, .ok _ => .isFalse (by intro hc; cases hc)
  | .error e, .error f =>
    if h : e = f then .isTrue (by rw [h]) else .isFalse (by intro hc; cases hc; exact h rfl)

/-- Sum of the selected shipping costs over a list of provider breakdowns. -/
def sumSelected (l : List ProviderBreakdown) : ℚ :=
  (l.map fun b => b.selectedShipping.shippingCost).sum

theorem sumSelected_nil : sumSelected [] = 0 := rfl

theorem sumSelected_cons (b : ProviderBreakdown) (l : List ProviderBreakdown) :
    sumSelected (b :: l) = b.selectedShipping.shippingCost + sumSelected l := by
  simp [sumSelected]

/-- Selected-rate minimum-delivery-day entries of a breakdown list. -/
def selMins (l : List ProviderBreakdown) : List (Option Nat) :=
  l.map fun b => b.selectedShipping.minDeliveryDays

/-- Selected-rate maximum-delivery-day entries of a breakdown list. -/
def selMaxs (l : List ProviderBreakdown) : List (Option Nat) :=
  l.map fun b => b.selectedShipping.maxDeliveryDays

/-- The quoting loop appends breakdown entries, accumulates exactly the sum
of their selected shipping costs, and folds the delivery-day bounds of the
selected rates with the running min/max updates. -/
theorem quoteBuckets_append (runtime : MarketplaceRuntime) (address : ShippingAddress)
    (groups : List (String × List ProviderItemGroup)) :
    ∀ acc acc', quoteBuckets runtime address groups acc = .ok acc' →
      ∃ tail, acc'.breakdown = acc.breakdown ++ tail ∧
        acc'.shippingCost = acc.shippingCost + sumSelected tail ∧
        acc'.minDeliveryDays = (selMins tail).foldl mergeMin acc.minDeliveryDays ∧
        acc'.maxDeliveryDays = (selMaxs tail).foldl mergeMax acc.maxDeliveryDays := by
  induction groups with
  | nil =>
    intro acc acc' h
    simp only [quoteBuckets] at h
    cases h
    exact ⟨[], by simp [sumSelected_nil], by simp [sumSelected_nil, selMins, selMaxs]⟩
  | cons entry rest ih =>
    obtain ⟨name, gitems⟩ := entry
    intro acc acc' h
    simp only [quoteBuckets] at h
    split at h
    · split at h
      · obtain ⟨tail, ht, hc, hmn, hmx⟩ := ih _ _ h
        refine ⟨{ provider := "manual", itemCount := gitems.length
                  subtotal := bucketSubtotal gitems
                  selectedShipping := manualShipping
                  availableRates := [manualShipping] } :: tail, ?_, ?_, ?_, ?_⟩
        · simpa using ht
        · rw [sumSelected_cons, hc]
          simp [manualShipping]
        · rw [hmn]; rfl
        · rw [hmx]; rfl
      · cases h
    · split at h
      · cases h
      · split at h
        · cases h
        · obtain ⟨tail, ht, hc, hmn, hmx⟩ := ih _ _ h
          rename_i gateway _ quoteResult _ first more _
          refine ⟨{ provider := name, itemCount := gitems.length
                    subtotal := bucketSubtotal gitems
                    selectedShipping := rateToOption name (selectCheapest first more)
                    availableRates := (first :: more).map (rateToOption name) } :: tail,
                  ?_, ?_, ?_, ?_⟩
          · simpa using ht
          · rw [sumSelected_cons, hc]
            simp [rateToOption]
            ring
          · rw [hmn]; rfl
          · rw [hmx]; rfl

/-- Claim C2 — for every successful `getQuote` result, `total` equals
`subtotal + shippingCost`, and `shippingCost` equals the sum over all
`providerBreakdown` entries of `selectedShipping.shippingCost` (the
`"manual"` bucket's selected option has cost 0, so it contributes zero). -/
theorem claim_C2_quote_totals (find : String → Option Product)
    (runtime : MarketplaceRuntime) (items : List QuoteItemInput)
    (address : ShippingAddress) (q : QuoteOutput) (calls : List String)
    (h : getQuote find runtime items address = .ok (q, calls)) :
    q.total = q.subtotal + q.shippingCost ∧
    q.shippingCost = sumSelected q.providerBreakdown := by
  unfold getQuote at h
  split at h
  · cases h
  · split at h
    · cases h
    · rename_i acc hacc
      cases h
      obtain ⟨tail, ht, hc, _, _⟩ := quoteBuckets_append runtime address _ _ _ hacc
      refine ⟨rfl, ?_⟩
      show acc.shippingCost = sumSelected acc.breakdown
      rw [ht, hc]
      simp

/-- Membership: JS `reduce`-based cheapest-rate selection picks one of the
given rates. -/
theorem selectCheapest_mem (first : ShippingRate) (rest : List ShippingRate) :
    selectCheapest first rest ∈ first :: rest := by
  induction rest generalizing first with
  | nil => simp [selectCheapest]
  | cons r rs ih =>
    simp only [selectCheapest, List.foldl_cons]
    have h := ih (if r.rate < first.rate then r else first)
    simp only [selectCheapest] at h
    rcases List.mem_cons.1 h with h1 | h2
    · rw [h1]
      split
      · exact List.mem_cons_of_mem _ (List.mem_cons_self _ _)
      · exact List.mem_cons_self _ _
    · exact List.mem_cons_of_mem _ (List.mem_cons_of_mem _ h2)

/-- Minimality: the selected rate's cost is a lower bound of all given
rates' costs. -/
theorem selectCheapest_le (first : ShippingRate) (rest : List ShippingRate) :
    ∀ r ∈ first :: rest, (selectCheapest first rest).rate ≤ r.rate := by
  induction rest generalizing first with
  | nil =>
    intro r hr
    rcases List.mem_cons.1 hr with rfl | h
    · simp [selectCheapest]
    · simp at h
  | cons x xs ih =>
    intro r hr
    simp only [selectCheapest, List.foldl_cons]
    have ihh := ih (if x.rate < first.rate then x else first)
    simp only [selectCheapest] at ihh
    have hstep1 : (if x.rate < first.rate then x else first).rate ≤ first.rate := by
      split
      · exact le_of_lt ‹_›
      · exact le_refl _
    have hstep2 : (if x.rate < first.rate then x else first).rate ≤ x.rate := by
      split
      · exact le_refl _
      · exact le_of_not_lt ‹_›
    rcases List.mem_cons.1 hr with rfl | hr1
    · exact le_trans (ihh _ (List.mem_cons_self _ _)) hstep1
    rcases List.mem_cons.1 hr1 with rfl | hr2
    · exact le_trans (ihh _ (List.mem_cons_self _ _)) hstep2
    · exact ihh _ (List.mem_cons_of_mem _ hr2)

/-- A breakdown entry whose selected shipping option is one of its available
rates and is cheapest among them. -/
def goodBreakdown (b : ProviderBreakdown) : Prop :=
  b.selectedShipping ∈ b.availableRates ∧
  ∀ r ∈ b.availableRates, b.selectedShipping.shippingCost ≤ r.shippingCost

/-- Every breakdown entry produced by the quoting loop is good. -/
theorem quoteBuckets_good (runtime : MarketplaceRuntime) (address : ShippingAddress)
    (groups : List (String × List ProviderItemGroup)) :
    ∀ acc acc', quoteBuckets runtime address groups acc = .ok acc' →
      ∀ b ∈ acc'.breakdown, b ∈ acc.breakdown ∨ goodBreakdown b := by
  induction groups with
  | nil =>
    intro acc acc' h
    simp only [quoteBuckets] at h
    cases h
    intro b hb
    exact Or.inl hb
  | cons entry rest ih =>
    obtain ⟨name, gitems⟩ := entry
    intro acc acc' h
    simp only [quoteBuckets] at h
    split at h
    · split at h
      · intro b hb
        rcases ih _ _ h b hb with hmem | hgood
        · rcases List.mem_append.1 hmem with h1 | h2
          · exact Or.inl h1
          · refine Or.inr ?_
            have hb : b = { provider := "manual", itemCount := gitems.length
                            subtotal := bucketSubtotal gitems
                            selectedShipping := manualShipping
                            availableRates := [manualShipping] } := by simpa using h2
            subst hb
            exact ⟨by simp, by intro r hr; simp at hr; simp [hr]⟩
        · exact Or.inr hgood
      · cases h
    · split at h
      · cases h
      · split at h
        · cases h
        · rename_i gateway _ quoteResult _ first more _
          intro b hb
          rcases ih _ _ h b hb with hmem | hgood
          · rcases List.mem_append.1 hmem with h1 | h2
            · exact Or.inl h1
            · refine Or.inr ?_
              have hb : b = { provider := name, itemCount := gitems.length
                              subtotal := bucketSubtotal gitems
                              selectedShipping := rateToOption name (selectCheapest first more)
                              availableRates := (first :: more).map (rateToOption name) } := by
                simpa using h2
              subst hb
              constructor
              · exact List.mem_map_of_mem _ (selectCheapest_mem first more)
              · intro r hr
                obtain ⟨r0, hr0, rfl⟩ := List.mem_map.1 hr
                show (rateToOption name (selectCheapest first more)).shippingCost ≤
                  (rateToOption name r0).shippingCost
                simpa [rateToOption] using selectCheapest_le first more r0 hr0
          · exact Or.inr hgood

/-- Claim C3 — in every successful `getQuote` result, each provider
breakdown's `selectedShipping` is a member of its `availableRates` and its
`shippingCost` is minimal among them. -/
theorem claim_C3_selected_is_cheapest (find : String → Option Product)
    (runtime : MarketplaceRuntime) (items : List QuoteItemInput)
    (address : ShippingAddress) (q : QuoteOutput) (calls : List String)
    (h : getQuote find runtime items address = .ok (q, calls)) :
    ∀ b ∈ q.providerBreakdown,
      b.selectedShipping ∈ b.availableRates ∧
      ∀ r ∈ b.availableRates, b.selectedShipping.shippingCost ≤ r.shippingCost := by
  unfold getQuote at h
  split at h
  · cases h
  · split at h
    · cases h
    · rename_i acc hacc
      cases h
      intro b hb
      rcases quoteBuckets_good runtime address _ _ _ hacc b hb with hmem | hgood
      · simp at hmem
      · exact hgood

/-! ### Concrete test fixtures -/

/-- A concrete shipping address used by the concrete scenarios. -/
def exAddr : ShippingAddress :=
  { companyName := none, firstName := "Ada", lastName := "Lovelace"
    addressLine1 := "1 Main St", addressLine2 := none, city := "Springfield"
    state := "CA", postCode := "90001", country := "US"
    email := "ada@example.com", phone := none }

/-- A locally fulfilled product (`fulfillmentProvider = "manual"`), unit
price 10, no variants. -/
def manualProduct : Product :=
  { id := "manual-1", title := "Manual Tee", description := none, price := 10
    currency := "USD", fulfillmentProvider := "manual", images := [], variants := [] }

/-- Catalog holding only `manualProduct`. -/
def manualFind : String → Option Product :=
  fun pid => if pid = "manual-1" then some manualProduct else none

/-- A runtime with no configured fulfillment or payment providers. -/
def emptyRuntime : MarketplaceRuntime :=
  { getProvider := fun _ => none, getPaymentProvider := fun _ => none }

/-- Cart `[{productId: "manual-1", quantity: 2}]`. -/
def manualItems : List QuoteItemInput := [⟨"manual-1", none, 2⟩]

/-- The quote computed for the manual-only cart. -/
def manualQuote : QuoteOutput :=
  { subtotal := 20, shippingCost := 0, total := 20, currency := "USD"
    providerBreakdown :=
      [{ provider := "manual", itemCount := 1, subtotal := 20
         selectedShipping := manualShipping, availableRates := [manualShipping] }]
    estimatedDelivery := some ⟨5, 10⟩ }

/-- A print-on-demand product fulfilled by provider `"printful"`. -/
def printfulProduct : Product :=
  { id := "pf-1", title := "Printful Tee", description := none, price := 10
    currency := "USD", fulfillmentProvider := "printful", images := [], variants := [] }

/-- Catalog holding only `printfulProduct`. -/
def printfulFind : String → Option Product :=
  fun pid => if pid = "pf-1" then some printfulProduct else none

/-- Shipping rate `{id: "r1", rate: 5}`. -/
def rateR1 : ShippingRate :=
  { id := "r1", name := "Rate 1", rate := 5, currency := "USD"
    minDeliveryDays := none, maxDeliveryDays := none }

/-- Shipping rate `{id: "r2", rate: 8}`. -/
def rateR2 : ShippingRate :=
  { id := "r2", name := "Rate 2", rate := 8, currency := "USD"
    minDeliveryDays := none, maxDeliveryDays := none }

/-- A printful gateway quoting rates `[r1, r2]` and creating draft
`pf-draft-1`. -/
def printfulGateway : ProviderGateway :=
  { quoteOrder := fun _ => .ok { rates := [rateR1, rateR2], currency := "USD" }
    createOrder := fun _ => .ok { id := "pf-draft-1", status := "draft" }
    cancelOrder := fun _ => .ok () }

/-- Runtime configuring only the printful gateway. -/
def printfulRuntime : MarketplaceRuntime :=
  { getProvider := fun name => if name = "printful" then some printfulGateway else none
    getPaymentProvider := fun _ => none }

/-- Cart with one printful item. -/
def printfulItems : List QuoteItemInput := [⟨"pf-1", none, 1⟩]

/-- The breakdown computed for the printful cart: rate `r1` (cost 5) is
selected out of `[r1, r2]`. -/
def printfulBd : ProviderBreakdown :=
  { provider := "printful", itemCount := 1, subtotal := 10
    selectedShipping := rateToOption "printful" rateR1
    availableRates := [rateToOption "printful" rateR1, rateToOption "printful" rateR2] }

/-- The quote computed for the printful cart. -/
def printfulQuote : QuoteOutput :=
  { subtotal := 10, shippingCost := 5, total := 15, currency := "USD"
    providerBreakdown := [printfulBd], estimatedDelivery := none }

/-- Witness for claim C2: the manual-only cart quote satisfies both
aggregation identities. -/
theorem claim_C2_quote_totals_witness :
    getQuote manualFind emptyRuntime manualItems exAddr = .ok (manualQuote, []) ∧
    (manualQuote.total = manualQuote.subtotal + manualQuote.shippingCost ∧
     manualQuote.shippingCost = sumSelected manualQuote.providerBreakdown) :=
  have h : getQuote manualFind emptyRuntime manualItems exAddr = .ok (manualQuote, []) := by
    with_unfolding_all rfl
  ⟨h, claim_C2_quote_totals manualFind emptyRuntime manualItems exAddr manualQuote [] h⟩

/-- Witness for claim C3: for the provider mocked to return rates
`[{id:"r1",rate:5},{id:"r2",rate:8}]`, the selected rate is `r1` and the
bucket contributes 5 to the shipping cost. -/
theorem claim_C3_selected_is_cheapest_witness :
    getQuote printfulFind printfulRuntime printfulItems exAddr
      = .ok (printfulQuote, ["printful"]) ∧
    printfulBd.selectedShipping.rateId = "r1" ∧
    printfulBd.selectedShipping.shippingCost = 5 ∧
    printfulQuote.shippingCost = 5 ∧
    (printfulBd.selectedShipping ∈ printfulBd.availableRates ∧
     ∀ r ∈ printfulBd.availableRates,
       printfulBd.selectedShipping.shippingCost ≤ r.shippingCost) :=
  have h : getQuote printfulFind printfulRuntime printfulItems exAddr
      = .ok (printfulQuote, ["printful"]) := by with_unfolding_all rfl
  ⟨h, rfl, rfl, rfl,
   claim_C3_selected_is_cheapest printfulFind printfulRuntime printfulItems exAddr
     printfulQuote ["printful"] h printfulBd (List.mem_singleton.2 rfl)⟩

/-- Resolving a list of items that all belong to the `"manual"` bucket keeps
the grouping map a single `"manual"` entry. -/
theorem resolveItems_all_manual (find : String → Option Product)
    (items : List QuoteItemInput)
    (hall : ∀ i ∈ items, ∃ p, find i.productId = some p ∧ providerKey p = "manual") :
    ∀ (s : ℚ) (gs : List ProviderItemGroup),
      ∃ s' gs', resolveItems find items s [("manual", gs)] = .ok (s', [("manual", gs')]) := by
  induction items with
  | nil => intro s gs; exact ⟨s, gs, rfl⟩
  | cons i rest ih =>
    intro s gs
    obtain ⟨p, hp, hkey⟩ := hall i (List.mem_cons_self _ _)
    have hall' : ∀ j ∈ rest, ∃ p, find j.productId = some p ∧ providerKey p = "manual" :=
      fun j hj => hall j (List.mem_cons_of_mem _ hj)
    simp only [resolveItems, hp, hkey]
    have hins : ∀ g : ProviderItemGroup,
        insertGroup [("manual", gs)] "manual" g = [("manual", gs ++ [g])] := by
      intro g; simp [insertGroup]
    rw [hins]
    exact ih hall' _ _

/-- Claim C6 — for a non-empty cart consisting only of `"manual"`-bucket
items (with no gateway registered under `"manual"`), `getQuote` performs no
external gateway call (empty call trace) and returns exactly one breakdown
entry whose `availableRates` is the single zero-cost `manual-standard` /
`Standard Shipping` rate with a 5–10 day estimate. -/
theorem claim_C6_manual_only_quote (find : String → Option Product)
    (runtime : MarketplaceRuntime) (items : List QuoteItemInput)
    (address : ShippingAddress)
    (hm : runtime.getProvider "manual" = none)
    (hne : items ≠ [])
    (hall : ∀ i ∈ items, ∃ p, find i.productId = some p ∧ providerKey p = "manual") :
    ∃ q gs,
      getQuote find runtime items address = .ok (q, []) ∧
      q.providerBreakdown =
        [{ provider := "manual", itemCount := gs.length
           subtotal := bucketSubtotal gs
           selectedShipping := manualShipping
           availableRates := [manualShipping] }] ∧
      q.shippingCost = 0 ∧
      q.total = q.subtotal ∧
      q.estimatedDelivery = some ⟨5, 10⟩ ∧
      manualShipping.rateId = "manual-standard" ∧
      manualShipping.rateName = "Standard Shipping" ∧
      manualShipping.shippingCost = 0 ∧
      manualShipping.minDeliveryDays = some 5 ∧
      manualShipping.maxDeliveryDays = some 10 := by
  match items, hne with
  | i :: rest, _ =>
    obtain ⟨p, hp, hkey⟩ := hall i (List.mem_cons_self _ _)
    have hall' : ∀ j ∈ rest, ∃ p, find j.productId = some p ∧ providerKey p = "manual" :=
      fun j hj => hall j (List.mem_cons_of_mem _ hj)
    simp only [getQuote, resolveItems, hp, hkey]
    have hins : ∀ g : ProviderItemGroup,
        insertGroup [] "manual" g = [("manual", [g])] := by
      intro g; simp [insertGroup]
    rw [hins]
    obtain ⟨s', gs', hres⟩ := resolveItems_all_manual find rest hall' _ _
    rw [hres]
    simp only [quoteBuckets, hm, if_pos rfl, mergeMin, mergeMax]
    exact ⟨_, gs', rfl, rfl, rfl, add_zero s', rfl, rfl, rfl, rfl, rfl, rfl⟩

/-- Witness for claim C6 — the concrete cart
`[{productId:"manual-1", quantity:2}]` with unit price 10: `subtotal = 20`,
`shippingCost = 0`, `total = 20`, one breakdown entry with rate id
`manual-standard`. -/
theorem claim_C6_manual_only_quote_witness :
    emptyRuntime.getProvider "manual" = none ∧
    manualItems ≠ [] ∧
    getQuote manualFind emptyRuntime manualItems exAddr = .ok (manualQuote, []) ∧
    manualQuote.subtotal = 20 ∧
    manualQuote.shippingCost = 0 ∧
    manualQuote.total = 20 ∧
    (manualQuote.providerBreakdown.map fun b => b.selectedShipping.rateId)
      = ["manual-standard"] ∧
    (∃ q gs,
      getQuote manualFind emptyRuntime manualItems exAddr = .ok (q, []) ∧
      q.providerBreakdown =
        [{ provider := "manual", itemCount := gs.length
           subtotal := bucketSubtotal gs
           selectedShipping := manualShipping
           availableRates := [manualShipping] }] ∧
      q.shippingCost = 0 ∧
      q.total = q.subtotal ∧
      q.estimatedDelivery = some ⟨5, 10⟩ ∧
      manualShipping.rateId = "manual-standard" ∧
      manualShipping.rateName = "Standard Shipping" ∧
      manualShipping.shippingCost = 0 ∧
      manualShipping.minDeliveryDays = some 5 ∧
      manualShipping.maxDeliveryDays = some 10) :=
  ⟨rfl, by decide, by with_unfolding_all rfl, by with_unfolding_all rfl, rfl,
   by with_unfolding_all rfl, rfl,
   claim_C6_manual_only_quote manualFind emptyRuntime manualItems exAddr rfl
     (by decide)
     (by
       intro i hi
       simp only [manualItems, List.mem_singleton] at hi
       subst hi
       exact ⟨manualProduct, rfl, rfl⟩)⟩

/-- Item resolution succeeds exactly when every cart item's `productId`
resolves to a product. -/
theorem resolveItems_ok_iff (find : String → Option Product) :
    ∀ (items : List QuoteItemInput) (s : ℚ) (gs : List (String × List ProviderItemGroup)),
      (∃ out, resolveItems find items s gs = .ok out) ↔
        ∀ i ∈ items, (find i.productId).isSome := by
  intro items
  induction items with
  | nil =>
    intro s gs
    simp [resolveItems]
  | cons i rest ih =>
    intro s gs
    cases hfi : find i.productId with
    | none =>
      simp only [resolveItems, hfi]
      constructor
      · rintro ⟨out, hout⟩; cases hout
      · intro hall
        have := hall i (List.mem_cons_self _ _)
        rw [hfi] at this
        cases this
    | some p =>
      simp only [resolveItems, hfi]
      rw [ih]
      constructor
      · intro hrest j hj
        rcases List.mem_cons.1 hj with rfl | hj'
        · rw [hfi]; rfl
        · exact hrest j hj'
      · intro hall j hj
        exact hall j (List.mem_cons_of_mem _ hj)

/-- Whether one provider bucket can be quoted: the bucket is the synthetic
`"manual"` one, or its configured gateway's `quoteOrder` call succeeds with
a non-empty rate list. -/
def bucketQuoteOkB (runtime : MarketplaceRuntime) (address : ShippingAddress)
    (entry : String × List ProviderItemGroup) : Bool :=
  match runtime.getProvider entry.1 with
  | none => entry.1 == "manual"
  | some gateway =>
    match gateway.quoteOrder
        { recipient := buildRecipient address
          items := mapToFulfillmentItems entry.2
          currency := "USD" } with
    | .ok out => !out.rates.isEmpty
    | .error _ => false

/-- The quoting loop succeeds exactly when every bucket can be quoted. -/
theorem quoteBuckets_ok_iff (runtime : MarketplaceRuntime) (address : ShippingAddress) :
    ∀ (groups : List (String × List ProviderItemGroup)) (acc : QuoteAcc),
      (∃ acc', quoteBuckets runtime address groups acc = .ok acc') ↔
        ∀ e ∈ groups, bucketQuoteOkB runtime address e = true := by
  intro groups
  induction groups with
  | nil =>
    intro acc
    simp [quoteBuckets]
  | cons entry rest ih =>
    obtain ⟨name, gitems⟩ := entry
    intro acc
    cases hg : runtime.getProvider name with
    | none =>
      by_cases hm : name = "manual"
      · subst hm
        simp only [quoteBuckets, hg, eq_self_iff_true, if_true]
        rw [ih]
        constructor
        · intro hrest e he
          rcases List.mem_cons.1 he with rfl | he'
          · simp [bucketQuoteOkB, hg]
          · exact hrest e he'
        · intro hall e he
          exact hall e (List.mem_cons_of_mem _ he)
      · simp only [quoteBuckets, hg, if_neg hm]
        constructor
        · rintro ⟨acc', hacc⟩; cases hacc
        · intro hall
          have hb := hall (name, gitems) (List.mem_cons_self _ _)
          simp only [bucketQuoteOkB, hg] at hb
          exact absurd (by simpa using hb) hm
    | some gateway =>
      cases hq : gateway.quoteOrder
          { recipient := buildRecipient address
            items := mapToFulfillmentItems gitems
            currency := "USD" } with
      | error e =>
        simp only [quoteBuckets, hg, hq]
        constructor
        · rintro ⟨acc', hacc⟩; cases hacc
        · intro hall
          have hb := hall (name, gitems) (List.mem_cons_self _ _)
          simp only [bucketQuoteOkB, hg, hq] at hb
          exact absurd hb (by decide)
      | ok quoteResult =>
        cases hr : quoteResult.rates with
        | nil =>
          simp only [quoteBuckets, hg, hq, hr]
          constructor
          · rintro ⟨acc', hacc⟩; cases hacc
          · intro hall
            have hb := hall (name, gitems) (List.mem_cons_self _ _)
            simp only [bucketQuoteOkB, hg, hq, hr] at hb
            simp at hb
        | cons first more =>
          simp only [quoteBuckets, hg, hq, hr]
          rw [ih]
          constructor
          · intro hrest e he
            rcases List.mem_cons.1 he with rfl | he'
            · simp only [bucketQuoteOkB, hg, hq, hr]
              simp
            · exact hrest e he'
          · intro hall e he
            exact hall e (List.mem_cons_of_mem _ he)

/-- Claim C5 (amended) — `getQuote` succeeds exactly when every cart item's
`productId` resolves to a product and every provider bucket can be quoted:
the bucket is the synthetic `"manual"` one with no gateway registered for
it, or its configured gateway's `quoteOrder` call succeeds with a non-empty
rate list.  (Besides unresolvable products, unconfigured non-manual
providers and empty rate lists, a failing gateway quote call is a fourth
failure source.) -/
theorem claim_C5_amended_quote_failure_conditions (find : String → Option Product)
    (runtime : MarketplaceRuntime) (items : List QuoteItemInput)
    (address : ShippingAddress) :
    (∃ r, getQuote find runtime items address = .ok r) ↔
      ((∀ i ∈ items, (find i.productId).isSome) ∧
       ∀ s groups, resolveItems find items 0 [] = .ok (s, groups) →
         ∀ e ∈ groups, bucketQuoteOkB runtime address e = true) := by
  constructor
  · rintro ⟨r, hr⟩
    unfold getQuote at hr
    split at hr
    · cases hr
    · rename_i s groups hres
      split at hr
      · cases hr
      · rename_i acc hacc
        refine ⟨(resolveItems_ok_iff find items 0 []).1 ⟨_, hres⟩, ?_⟩
        intro s' groups' hsg
        rw [hres] at hsg
        cases hsg
        exact (quoteBuckets_ok_iff runtime address _ _).1 ⟨acc, hacc⟩
  · rintro ⟨hall, hbuckets⟩
    obtain ⟨out, hout⟩ := (resolveItems_ok_iff find items 0 []).2 hall
    obtain ⟨s, groups⟩ := out
    have hb := hbuckets s groups hout
    obtain ⟨acc, hacc⟩ :=
      (quoteBuckets_ok_iff runtime address groups ⟨[], 0, none, none, []⟩).2 hb
    exact ⟨({ subtotal := s, shippingCost := acc.shippingCost
              total := s + acc.shippingCost, currency := "USD"
              providerBreakdown := acc.breakdown
              estimatedDelivery :=
                match acc.minDeliveryDays, acc.maxDeliveryDays with
                | some mn, some mx => some ⟨mn, mx⟩
                | _, _ => none }, acc.calls),
      by unfold getQuote; rw [hout]; dsimp only; rw [hacc]⟩

/-- A gateway whose calls fail outright (e.g. a network error). -/
def errGateway : ProviderGateway :=
  { quoteOrder := fun _ => .error "network failure"
    createOrder := fun _ => .error "network failure"
    cancelOrder := fun _ => .error "network failure" }

/-- Runtime configuring the failing gateway under `"printful"`. -/
def errRuntime : MarketplaceRuntime :=
  { getProvider := fun name => if name = "printful" then some errGateway else none
    getPaymentProvider := fun _ => none }

/-- Counterexample to claim C5 as stated: a cart whose every product
resolves, whose only bucket's provider is configured, and whose gateway does
not return an empty rate list (its quote call fails with a network error
instead) — yet `getQuote` fails, so the three listed conditions are not
exhaustive. -/
theorem claim_C5_counterexample :
    printfulItems.all (fun i => (printfulFind i.productId).isSome) = true ∧
    errRuntime.getProvider "printful" = some errGateway ∧
    (match resolveItems printfulFind printfulItems 0 [] with
     | .ok (_, groups) => groups.all fun e => (errRuntime.getProvider e.1).isSome
     | .error _ => false) = true ∧
    (match resolveItems printfulFind printfulItems 0 [] with
     | .ok (_, groups) => groups.all fun e =>
         decide (errGateway.quoteOrder
           { recipient := buildRecipient exAddr
             items := mapToFulfillmentItems e.2
             currency := "USD" } = .error "network failure")
     | .error _ => false) = true ∧
    getQuote printfulFind errRuntime printfulItems exAddr =
      .error "Failed to get quote from printful: network failure" :=
  ⟨rfl, rfl, by with_unfolding_all rfl, by with_unfolding_all rfl,
   by with_unfolding_all rfl⟩

/-- Claim C8 — whenever `createCheckout` resolves the cart (so an order is
created), the created order's `totalAmount` is the subtotal re-resolved from
the current catalog plus the caller-supplied `shippingCost`, for every
runtime whatsoever: no provider rate enters the computation. -/
theorem claim_C8_total_trusts_caller_shipping (find : String → Option Product)
    (runtime : MarketplaceRuntime) (orderId : String) (p : CreateCheckoutParams)
    (s : ℚ) (groups : List (String × List ProviderItemGroup))
    (hres : resolveItems find p.items 0 [] = .ok (s, groups)) :
    ∃ o, (createCheckout find runtime orderId p).savedOrder = some o ∧
      o.totalAmount = s + p.shippingCost := by
  unfold createCheckout
  rw [hres]
  dsimp only
  split
  · exact ⟨_, rfl, rfl⟩
  · split
    · exact ⟨_, rfl, rfl⟩
    · split
      · exact ⟨_, rfl, rfl⟩
      · exact ⟨_, rfl, rfl⟩

/-- Parameters for the checkout of the manual-only cart, with a selected
rate recorded for the `"manual"` bucket. -/
def manualParams : CreateCheckoutParams :=
  { userId := "u1", items := manualItems, address := exAddr
    selectedRates := [("manual", "manual-standard")], shippingCost := 0
    successUrl := "https://shop.example/ok", cancelUrl := "https://shop.example/cancel" }

/-- The provider item group the manual cart resolves to. -/
def manualGroup : ProviderItemGroup :=
  { item := ⟨"manual-1", none, 2⟩, productId := "manual-1", variantId := none
    price := 10, currency := "USD", fulfillmentConfig := none
    productTitle := "Manual Tee", productDescription := none, productImage := none
    fulfillmentProvider := "manual" }

/-- Witness for claim C8: the manual cart checkout records
`totalAmount = 20 + 0`. -/
theorem claim_C8_total_trusts_caller_shipping_witness :
    resolveItems manualFind manualParams.items 0 []
      = .ok (20, [("manual", [manualGroup])]) ∧
    (∃ o, (createCheckout manualFind emptyRuntime "order-1" manualParams).savedOrder
        = some o ∧ o.totalAmount = 20 + manualParams.shippingCost) :=
  have h : resolveItems manualFind manualParams.items 0 []
      = .ok (20, [("manual", [manualGroup])]) := by with_unfolding_all rfl
  ⟨h, claim_C8_total_trusts_caller_shipping manualFind emptyRuntime "order-1"
        manualParams 20 [("manual", [manualGroup])] h⟩

/-- A successful draft-creation loop implies every bucket — the `"manual"`
one included — had a `selectedRates` entry. -/
theorem createDrafts_ok_selected (runtime : MarketplaceRuntime)
    (address : ShippingAddress) (orderId : String)
    (selectedRates : List (String × String)) :
    ∀ (buckets : List (String × List ProviderItemGroup))
      (acc drafts : List (String × String)),
      createDrafts runtime address orderId selectedRates buckets acc = .ok drafts →
      ∀ e ∈ buckets, (lookupStr selectedRates e.1).isSome := by
  intro buckets
  induction buckets with
  | nil => intro acc drafts h e he; simp at he
  | cons entry rest ih =>
    obtain ⟨name, gitems⟩ := entry
    intro acc drafts h e he
    simp only [createDrafts] at h
    split at h
    · cases h
    · rename_i rid hrid
      rcases List.mem_cons.1 he with rfl | he'
      · simp [hrid]
      · split at h
        · cases h
        · split at h
          · exact ih _ _ h e he'
          · split at h
            · cases h
            · split at h
              · cases h
              · exact ih _ _ h e he'

/-- Claim C7 (amended) — `createCheckout` verifies the `selectedRates` entry
for every provider bucket, the `"manual"` bucket included (the check
precedes the `"manual"` skip): if the first bucket has no entry the call
fails with the corresponding error, and a successful call implies every
bucket (also `"manual"`) had an entry. -/
theorem claim_C7_amended_selected_rate_check (find : String → Option Product)
    (runtime : MarketplaceRuntime) (orderId : String) (p : CreateCheckoutParams)
    (s : ℚ) (groups : List (String × List ProviderItemGroup))
    (hres : resolveItems find p.items 0 [] = .ok (s, groups)) :
    (∀ name gitems rest, groups = (name, gitems) :: rest →
       lookupStr p.selectedRates name = none →
       (createCheckout find runtime orderId p).result =
         .error ("No shipping rate selected for provider: " ++ name)) ∧
    (∀ out, (createCheckout find runtime orderId p).result = .ok out →
       ∀ e ∈ groups, (lookupStr p.selectedRates e.1).isSome) := by
  constructor
  · rintro name gitems rest rfl hmiss
    unfold createCheckout
    rw [hres]
    dsimp only
    simp only [createDrafts, hmiss]
  · intro out hout
    unfold createCheckout at hout
    rw [hres] at hout
    dsimp only at hout
    cases hd : createDrafts runtime p.address orderId p.selectedRates groups [] with
    | fail msg drafts =>
      rw [hd] at hout
      cases hout
    | ok drafts =>
      exact createDrafts_ok_selected runtime p.address orderId p.selectedRates
        groups [] drafts hd

/-- Counterexample to claim C7 as stated: a cart whose only bucket is
`"manual"` with no `selectedRates` entry does not succeed — the `"manual"`
bucket is subject to the selected-rate verification too. -/
theorem claim_C7_counterexample :
    manualProduct.fulfillmentProvider = "manual" ∧
    (createCheckout manualFind emptyRuntime "order-1"
        { userId := "u1", items := manualItems, address := exAddr
          selectedRates := [], shippingCost := 0
          successUrl := "https://shop.example/ok"
          cancelUrl := "https://shop.example/cancel" }).result =
      .error "No shipping rate selected for provider: manual" :=
  ⟨rfl, by with_unfolding_all rfl⟩

/-- Witness for the amended claim C7, at the manual-only cart with empty
`selectedRates`. -/
theorem claim_C7_amended_selected_rate_check_witness :
    resolveItems manualFind manualItems 0 [] = .ok (20, [("manual", [manualGroup])]) ∧
    lookupStr ([] : List (String × String)) "manual" = none ∧
    (createCheckout manualFind emptyRuntime "order-1"
        { userId := "u1", items := manualItems, address := exAddr
          selectedRates := [], shippingCost := 0
          successUrl := "https://shop.example/ok"
          cancelUrl := "https://shop.example/cancel" }).result =
      .error ("No shipping rate selected for provider: " ++ "manual") :=
  have h : resolveItems manualFind manualItems 0 []
      = .ok (20, [("manual", [manualGroup])]) := by with_unfolding_all rfl
  ⟨h, rfl,
   (claim_C7_amended_selected_rate_check manualFind emptyRuntime "order-1"
      { userId := "u1", items := manualItems, address := exAddr
        selectedRates := [], shippingCost := 0
        successUrl := "https://shop.example/ok"
        cancelUrl := "https://shop.example/cancel" }
      20 [("manual", [manualGroup])] h).1 "manual" [manualGroup] [] rfl rfl⟩

/-- Claim C1 (amended) — two-provider checkout where provider B's
`createOrder` fails after provider A's succeeded: the caller receives an
error naming provider B, the draft orders actually created at remote
providers are exactly provider A's, the persisted order's status is still
`pending`, and — because `updateDraftOrderIds` only runs after the payment
session is created — the persisted order has **no** recorded draft ids at
all (not even provider A's). -/
theorem claim_C1_amended_partial_draft_failure (find : String → Option Product)
    (runtime : MarketplaceRuntime) (orderId : String) (p : CreateCheckoutParams)
    (s : ℚ) (A B : String) (gsA gsB : List ProviderItemGroup)
    (gA gB : ProviderGateway) (rA rB : String) (draftA : CreatedDraft) (msg : String)
    (hres : resolveItems find p.items 0 [] = .ok (s, [(A, gsA), (B, gsB)]))
    (hAm : A ≠ "manual") (hBm : B ≠ "manual")
    (hrA : lookupStr p.selectedRates A = some rA) (hrAne : rA ≠ "")
    (hrB : lookupStr p.selectedRates B = some rB) (hrBne : rB ≠ "")
    (hgA : runtime.getProvider A = some gA)
    (hgB : runtime.getProvider B = some gB)
    (hcA : gA.createOrder
        { externalId := orderId, recipient := buildRecipient p.address
          items := mapToFulfillmentItems gsA, retailCurrency := "USD" } = .ok draftA)
    (hcB : gB.createOrder
        { externalId := orderId, recipient := buildRecipient p.address
          items := mapToFulfillmentItems gsB, retailCurrency := "USD" } = .error msg) :
    (createCheckout find runtime orderId p).result =
      .error ("Failed to create draft order at " ++ B ++ ": " ++ msg) ∧
    (createCheckout find runtime orderId p).remoteDrafts = [(A, draftA.id)] ∧
    ∃ o, (createCheckout find runtime orderId p).savedOrder = some o ∧
      o.status = .pending ∧ o.draftOrderIds = none := by
  have hd : createDrafts runtime p.address orderId p.selectedRates
      [(A, gsA), (B, gsB)] [] =
      .fail ("Failed to create draft order at " ++ B ++ ": " ++ msg) [(A, draftA.id)] := by
    simp only [createDrafts, hrA, hrB, if_neg hrAne, if_neg hrBne, if_neg hAm,
      if_neg hBm, hgA, hgB, hcA, hcB, List.nil_append]
  unfold createCheckout
  rw [hres]
  dsimp only
  rw [hd]
  exact ⟨rfl, rfl, _, rfl, rfl, rfl⟩

/-- A print-on-demand product fulfilled by provider `"gelato"`. -/
def gelatoProduct : Product :=
  { id := "gl-1", title := "Gelato Mug", description := none, price := 15
    currency := "USD", fulfillmentProvider := "gelato", images := [], variants := [] }

/-- Catalog holding the printful and the gelato product. -/
def twoProviderFind : String → Option Product :=
  fun pid =>
    if pid = "pf-1" then some printfulProduct
    else if pid = "gl-1" then some gelatoProduct
    else none

/-- A gelato gateway whose draft-order creation throws. -/
def gelatoFailGateway : ProviderGateway :=
  { quoteOrder := fun _ => .ok { rates := [rateR1], currency := "USD" }
    createOrder := fun _ => .error "boom"
    cancelOrder := fun _ => .ok () }

/-- Runtime where printful succeeds and gelato's `createOrder` fails. -/
def twoProviderRuntime : MarketplaceRuntime :=
  { getProvider := fun name =>
      if name = "printful" then some printfulGateway
      else if name = "gelato" then some gelatoFailGateway
      else none
    getPaymentProvider := fun _ => none }

/-- Checkout parameters for the two-provider cart. -/
def twoProviderParams : CreateCheckoutParams :=
  { userId := "u1", items := [⟨"pf-1", none, 1⟩, ⟨"gl-1", none, 1⟩], address := exAddr
    selectedRates := [("printful", "r1"), ("gelato", "r1")], shippingCost := 5
    successUrl := "https://shop.example/ok", cancelUrl := "https://shop.example/cancel" }

/-- The provider item group the printful item resolves to. -/
def printfulGroup : ProviderItemGroup :=
  { item := ⟨"pf-1", none, 1⟩, productId := "pf-1", variantId := none
    price := 10, currency := "USD", fulfillmentConfig := none
    productTitle := "Printful Tee", productDescription := none, productImage := none
    fulfillmentProvider := "printful" }

/-- The provider item group the gelato item resolves to. -/
def gelatoGroup : ProviderItemGroup :=
  { item := ⟨"gl-1", none, 1⟩, productId := "gl-1", variantId := none
    price := 15, currency := "USD", fulfillmentConfig := none
    productTitle := "Gelato Mug", productDescription := none, productImage := none
    fulfillmentProvider := "gelato" }

/-- Counterexample to claim C1 as stated: in the two-provider scenario where
gelato's `createOrder` throws after printful's draft has been created, the
persisted order's `draftOrderIds` is unset — it does **not** contain
provider A's (printful's) entry, because the map is only persisted after the
payment session is created. -/
theorem claim_C1_counterexample :
    (createCheckout twoProviderFind twoProviderRuntime "order-1"
        twoProviderParams).remoteDrafts = [("printful", "pf-draft-1")] ∧
    ((createCheckout twoProviderFind twoProviderRuntime "order-1"
        twoProviderParams).savedOrder.map fun o => o.draftOrderIds) = some none ∧
    ((createCheckout twoProviderFind twoProviderRuntime "order-1"
        twoProviderParams).savedOrder.map fun o => o.status) = some .pending ∧
    (createCheckout twoProviderFind twoProviderRuntime "order-1"
        twoProviderParams).result =
      .error "Failed to create draft order at gelato: boom" :=
  ⟨by with_unfolding_all rfl, by with_unfolding_all rfl,
   by with_unfolding_all rfl, by with_unfolding_all rfl⟩

/-- Witness for the amended claim C1, at the concrete two-provider
scenario. -/
theorem claim_C1_amended_partial_draft_failure_witness :
    resolveItems twoProviderFind twoProviderParams.items 0 []
      = .ok (25, [("printful", [printfulGroup]), ("gelato", [gelatoGroup])]) ∧
    ((createCheckout twoProviderFind twoProviderRuntime "order-1"
        twoProviderParams).result =
      .error ("Failed to create draft order at " ++ "gelato" ++ ": " ++ "boom") ∧
     (createCheckout twoProviderFind twoProviderRuntime "order-1"
        twoProviderParams).remoteDrafts = [("printful", "pf-draft-1")] ∧
     ∃ o, (createCheckout twoProviderFind twoProviderRuntime "order-1"
        twoProviderParams).savedOrder = some o ∧
       o.status = .pending ∧ o.draftOrderIds = none) :=
  have h : resolveItems twoProviderFind twoProviderParams.items 0 []
      = .ok (25, [("printful", [printfulGroup]), ("gelato", [gelatoGroup])]) := by
    with_unfolding_all rfl
  ⟨h,
   claim_C1_amended_partial_draft_failure twoProviderFind twoProviderRuntime
     "order-1" twoProviderParams 25 "printful" "gelato" [printfulGroup] [gelatoGroup]
     printfulGateway gelatoFailGateway "r1" "r1" ⟨"pf-draft-1", "draft"⟩ "boom"
     h (by decide) (by decide) rfl (by decide) rfl (by decide) rfl rfl rfl rfl⟩

/-- Claim C4 — per-order sweeper outcomes: no recorded draft ids ⇒ status
set to `cancelled`; otherwise all cancellations succeeded ⇒ `cancelled`,
some but not all ⇒ `partially_cancelled`, none ⇒ the order is left
unchanged (still `draft_created`) and counted as failed; and the error
entries are exactly one per failed provider cancellation, naming the order
and the provider. -/
theorem claim_C4_sweeper_outcomes (runtime : MarketplaceRuntime)
    (order : OrderRecord) (hst : order.status = .draft_created) :
    (order.draftOrderIds.getD [] = [] →
       (processAbandonedOrder runtime order).order = { order with status := .cancelled } ∧
       (processAbandonedOrder runtime order).cancelledDelta = 1 ∧
       (processAbandonedOrder runtime order).errors = []) ∧
    (order.draftOrderIds.getD [] ≠ [] →
       ((∀ r ∈ cancelDrafts runtime (order.draftOrderIds.getD []), r.success = true) →
          (processAbandonedOrder runtime order).order =
            { order with status := .cancelled } ∧
          (processAbandonedOrder runtime order).cancelledDelta = 1) ∧
       (((∃ r ∈ cancelDrafts runtime (order.draftOrderIds.getD []), r.success = true) ∧
         (∃ r ∈ cancelDrafts runtime (order.draftOrderIds.getD []), r.success = false)) →
          (processAbandonedOrder runtime order).order =
            { order with status := .partially_cancelled } ∧
          (processAbandonedOrder runtime order).partiallyCancelledDelta = 1) ∧
       ((∀ r ∈ cancelDrafts runtime (order.draftOrderIds.getD []), r.success = false) →
          (processAbandonedOrder runtime order).order = order ∧
          (processAbandonedOrder runtime order).order.status = .draft_created ∧
          (processAbandonedOrder runtime order).failedDelta = 1) ∧
       (processAbandonedOrder runtime order).errors =
         (cancelDrafts runtime (order.draftOrderIds.getD [])).filterMap fun r =>
           if r.success then none
           else some { orderId := order.id, provider := r.provider
                       error := r.error.getD "Unknown error" }) := by
  by_cases hd : order.draftOrderIds.getD [] = []
  · refine ⟨fun _ => ?_, fun hne => absurd hd hne⟩
    have hempty : (order.draftOrderIds.getD []).isEmpty = true := by
      rw [hd]; rfl
    simp [processAbandonedOrder, hempty]
  · refine ⟨fun h => absurd h hd, fun _ => ?_⟩
    have hempty : (order.draftOrderIds.getD []).isEmpty = false := by
      cases hval : order.draftOrderIds.getD [] with
      | nil => exact absurd hval hd
      | cons a l => rfl
    have hresne : cancelDrafts runtime (order.draftOrderIds.getD []) ≠ [] := by
      unfold cancelDrafts
      cases hval : order.draftOrderIds.getD [] with
      | nil => exact absurd hval hd
      | cons a l => simp
    refine ⟨?_, ?_, ?_, ?_⟩
    · intro hall
      have hallb : (cancelDrafts runtime (order.draftOrderIds.getD [])).all
          (fun r => r.success) = true := List.all_eq_true.2 hall
      simp [processAbandonedOrder, hempty, hallb]
    · rintro ⟨⟨rt, hrt, hrts⟩, ⟨rf, hrf, hrfs⟩⟩
      have hallb : (cancelDrafts runtime (order.draftOrderIds.getD [])).all
          (fun r => r.success) = false := by
        rcases Bool.eq_false_or_eq_true ((cancelDrafts runtime
            (order.draftOrderIds.getD [])).all fun r => r.success) with h | h
        · have := List.all_eq_true.1 h rf hrf
          rw [hrfs] at this
          cases this
        · exact h
      have hanyb : (cancelDrafts runtime (order.draftOrderIds.getD [])).any
          (fun r => r.success) = true := List.any_eq_true.2 ⟨rt, hrt, hrts⟩
      simp [processAbandonedOrder, hempty, hallb, hanyb]
    · intro hall
      have hallb : (cancelDrafts runtime (order.draftOrderIds.getD [])).all
          (fun r => r.success) = false := by
        cases hval : cancelDrafts runtime (order.draftOrderIds.getD []) with
        | nil => exact absurd hval hresne
        | cons a l =>
          have ha := hall a (by rw [hval]; exact List.mem_cons_self _ _)
          simp [ha]
      have hanyb : (cancelDrafts runtime (order.draftOrderIds.getD [])).any
          (fun r => r.success) = false := by
        rcases Bool.eq_false_or_eq_true ((cancelDrafts runtime
            (order.draftOrderIds.getD [])).any fun r => r.success) with h | h
        · obtain ⟨r, hr, hrs⟩ := List.any_eq_true.1 h
          have := hall r hr
          rw [this] at hrs
          cases hrs
        · exact h
      simp [processAbandonedOrder, hempty, hallb, hanyb, hst]
    · simp only [processAbandonedOrder, hempty, Bool.false_eq_true, if_false]
      split
      · rfl
      · split
        · rfl
        · rfl

/-- The abandoned `draft_created` order of the concrete sweeper scenario:
one recorded printful draft `d1`. -/
def c4Order : OrderRecord :=
  { id := "order-9", userId := "u1", status := .draft_created, totalAmount := 20
    currency := "USD", checkoutSessionId := some "cs_1", checkoutProvider := some "stripe"
    draftOrderIds := some [("printful", "d1")], items := [] }

/-- A gateway whose order cancellation fails (order already shipped). -/
def cancelFailGateway : ProviderGateway :=
  { quoteOrder := fun _ => .ok { rates := [rateR1], currency := "USD" }
    createOrder := fun _ => .ok { id := "d1", status := "draft" }
    cancelOrder := fun _ => .error "already shipped" }

/-- Runtime whose printful gateway fails cancellations. -/
def c4Runtime : MarketplaceRuntime :=
  { getProvider := fun name => if name = "printful" then some cancelFailGateway else none
    getPaymentProvider := fun _ => none }

/-- Witness for claim C4, at the scenario where the single cancellation
fails: the order stays `draft_created`, it is counted as failed, and one
error entry names the order and the provider. -/
theorem claim_C4_sweeper_outcomes_witness :
    c4Order.status = .draft_created ∧
    ((c4Order.draftOrderIds.getD [] = [] →
       (processAbandonedOrder c4Runtime c4Order).order =
         { c4Order with status := .cancelled } ∧
       (processAbandonedOrder c4Runtime c4Order).cancelledDelta = 1 ∧
       (processAbandonedOrder c4Runtime c4Order).errors = []) ∧
     (c4Order.draftOrderIds.getD [] ≠ [] →
       ((∀ r ∈ cancelDrafts c4Runtime (c4Order.draftOrderIds.getD []), r.success = true) →
          (processAbandonedOrder c4Runtime c4Order).order =
            { c4Order with status := .cancelled } ∧
          (processAbandonedOrder c4Runtime c4Order).cancelledDelta = 1) ∧
       (((∃ r ∈ cancelDrafts c4Runtime (c4Order.draftOrderIds.getD []), r.success = true) ∧
         (∃ r ∈ cancelDrafts c4Runtime (c4Order.draftOrderIds.getD []), r.success = false)) →
          (processAbandonedOrder c4Runtime c4Order).order =
            { c4Order with status := .partially_cancelled } ∧
          (processAbandonedOrder c4Runtime c4Order).partiallyCancelledDelta = 1) ∧
       ((∀ r ∈ cancelDrafts c4Runtime (c4Order.draftOrderIds.getD []), r.success = false) →
          (processAbandonedOrder c4Runtime c4Order).order = c4Order ∧
          (processAbandonedOrder c4Runtime c4Order).order.status = .draft_created ∧
          (processAbandonedOrder c4Runtime c4Order).failedDelta = 1) ∧
       (processAbandonedOrder c4Runtime c4Order).errors =
         (cancelDrafts c4Runtime (c4Order.draftOrderIds.getD [])).filterMap fun r =>
           if r.success then none
           else some { orderId := c4Order.id, provider := r.provider
                       error := r.error.getD "Unknown error" })) ∧
    (processAbandonedOrder c4Runtime c4Order).failedDelta = 1 ∧
    (processAbandonedOrder c4Runtime c4Order).order.status = .draft_created ∧
    (processAbandonedOrder c4Runtime c4Order).errors =
      [{ orderId := "order-9", provider := "printful", error := "already shipped" }] :=
  ⟨rfl, claim_C4_sweeper_outcomes c4Runtime c4Order rfl,
   by with_unfolding_all rfl, by with_unfolding_all rfl, by with_unfolding_all rfl⟩

theorem mergeMin_eq_none_iff (cur d : Option Nat) :
    mergeMin cur d = none ↔ cur = none ∧ d = none := by
  cases d with
  | none => simp [mergeMin]
  | some dd =>
    cases cur with
    | none => simp [mergeMin]
    | some m =>
      simp only [mergeMin]
      split <;> simp

theorem mergeMin_mem (cur d : Option Nat) (m : Nat) (h : mergeMin cur d = some m) :
    cur = some m ∨ d = some m := by
  cases d with
  | none => exact Or.inl h
  | some dd =>
    cases cur with
    | none => exact Or.inr h
    | some k =>
      simp only [mergeMin] at h
      split at h
      · exact Or.inr h
      · exact Or.inl h

theorem mergeMin_le_left (cur d : Option Nat) (k : Nat) (hc : cur = some k) :
    ∃ j, mergeMin cur d = some j ∧ j ≤ k := by
  subst hc
  cases d with
  | none => exact ⟨k, rfl, le_refl k⟩
  | some dd =>
    simp only [mergeMin]
    split
    · exact ⟨dd, rfl, le_of_lt ‹_›⟩
    · exact ⟨k, rfl, le_refl k⟩

theorem mergeMin_le_right (cur d : Option Nat) (k : Nat) (hd : d = some k) :
    ∃ j, mergeMin cur d = some j ∧ j ≤ k := by
  subst hd
  cases cur with
  | none => exact ⟨k, rfl, le_refl k⟩
  | some m =>
    simp only [mergeMin]
    split
    · exact ⟨k, rfl, le_refl k⟩
    · exact ⟨m, rfl, le_of_not_lt ‹_›⟩

theorem mergeMax_eq_none_iff (cur d : Option Nat) :
    mergeMax cur d = none ↔ cur = none ∧ d = none := by
  cases d with
  | none => simp [mergeMax]
  | some dd =>
    cases cur with
    | none => simp [mergeMax]
    | some m =>
      simp only [mergeMax]
      split <;> simp

theorem mergeMax_mem (cur d : Option Nat) (m : Nat) (h : mergeMax cur d = some m) :
    cur = some m ∨ d = some m := by
  cases d with
  | none => exact Or.inl h
  | some dd =>
    cases cur with
    | none => exact Or.inr h
    | some k =>
      simp only [mergeMax] at h
      split at h
      · exact Or.inr h
      · exact Or.inl h

theorem mergeMax_ge_left (cur d : Option Nat) (k : Nat) (hc : cur = some k) :
    ∃ j, mergeMax cur d = some j ∧ k ≤ j := by
  subst hc
  cases d with
  | none => exact ⟨k, rfl, le_refl k⟩
  | some dd =>
    simp only [mergeMax]
    split
    · exact ⟨dd, rfl, le_of_lt ‹_›⟩
    · exact ⟨k, rfl, le_refl k⟩

theorem mergeMax_ge_right (cur d : Option Nat) (k : Nat) (hd : d = some k) :
    ∃ j, mergeMax cur d = some j ∧ k ≤ j := by
  subst hd
  cases cur with
  | none => exact ⟨k, rfl, le_refl k⟩
  | some m =>
    simp only [mergeMax]
    split
    · exact ⟨k, rfl, le_refl k⟩
    · exact ⟨m, rfl, le_of_not_lt ‹_›⟩

theorem foldl_mergeMin_eq_none_iff (l : List (Option Nat)) :
    ∀ (i : Option Nat), l.foldl mergeMin i = none ↔ i = none ∧ ∀ x ∈ l, x = none := by
  induction l with
  | nil => intro i; simp
  | cons x xs ih =>
    intro i
    simp only [List.foldl_cons]
    rw [ih, mergeMin_eq_none_iff]
    constructor
    · rintro ⟨⟨hi, hx⟩, hrest⟩
      refine ⟨hi, fun y hy => ?_⟩
      rcases List.mem_cons.1 hy with rfl | hy'
      · exact hx
      · exact hrest y hy'
    · rintro ⟨hi, hall⟩
      exact ⟨⟨hi, hall x (List.mem_cons_self _ _)⟩,
        fun y hy => hall y (List.mem_cons_of_mem _ hy)⟩

theorem foldl_mergeMax_eq_none_iff (l : List (Option Nat)) :
    ∀ (i : Option Nat), l.foldl mergeMax i = none ↔ i = none ∧ ∀ x ∈ l, x = none := by
  induction l with
  | nil => intro i; simp
  | cons x xs ih =>
    intro i
    simp only [List.foldl_cons]
    rw [ih, mergeMax_eq_none_iff]
    constructor
    · rintro ⟨⟨hi, hx⟩, hrest⟩
      refine ⟨hi, fun y hy => ?_⟩
      rcases List.mem_cons.1 hy with rfl | hy'
      · exact hx
      · exact hrest y hy'
    · rintro ⟨hi, hall⟩
      exact ⟨⟨hi, hall x (List.mem_cons_self _ _)⟩,
        fun y hy => hall y (List.mem_cons_of_mem _ hy)⟩

/-- The running-minimum fold yields a member of its inputs that bounds all
of them from below. -/
theorem foldl_mergeMin_min (l : List (Option Nat)) :
    ∀ (i : Option Nat) (m : Nat), l.foldl mergeMin i = some m →
      (i = some m ∨ some m ∈ l) ∧
      (∀ k, i = some k → m ≤ k) ∧
      (∀ k, some k ∈ l → m ≤ k) := by
  induction l with
  | nil =>
    intro i m h
    simp only [List.foldl_nil] at h
    refine ⟨Or.inl h, ?_, ?_⟩
    · intro k hk
      rw [hk] at h
      cases h
      exact le_refl _
    · intro k hk
      simp at hk
  | cons x xs ih =>
    intro i m h
    simp only [List.foldl_cons] at h
    obtain ⟨hmem, hbi, hbl⟩ := ih (mergeMin i x) m h
    refine ⟨?_, ?_, ?_⟩
    · rcases hmem with hji | hmm
      · rcases mergeMin_mem i x m hji with hi | hx
        · exact Or.inl hi
        · exact Or.inr (List.mem_cons.2 (Or.inl hx.symm))
      · exact Or.inr (List.mem_cons_of_mem _ hmm)
    · intro k hk
      obtain ⟨j, hj, hjk⟩ := mergeMin_le_left i x k hk
      exact le_trans (hbi j hj) hjk
    · intro k hk
      rcases List.mem_cons.1 hk with hx | hxs
      · obtain ⟨j, hj, hjk⟩ := mergeMin_le_right i x k hx.symm
        exact le_trans (hbi j hj) hjk
      · exact hbl k hxs

/-- The running-maximum fold yields a member of its inputs that bounds all
of them from above. -/
theorem foldl_mergeMax_max (l : List (Option Nat)) :
    ∀ (i : Option Nat) (m : Nat), l.foldl mergeMax i = some m →
      (i = some m ∨ some m ∈ l) ∧
      (∀ k, i = some k → k ≤ m) ∧
      (∀ k, some k ∈ l → k ≤ m) := by
  induction l with
  | nil =>
    intro i m h
    simp only [List.foldl_nil] at h
    refine ⟨Or.inl h, ?_, ?_⟩
    · intro k hk
      rw [hk] at h
      cases h
      exact le_refl _
    · intro k hk
      simp at hk
  | cons x xs ih =>
    intro i m h
    simp only [List.foldl_cons] at h
    obtain ⟨hmem, hbi, hbl⟩ := ih (mergeMax i x) m h
    refine ⟨?_, ?_, ?_⟩
    · rcases hmem with hji | hmm
      · rcases mergeMax_mem i x m hji with hi | hx
        · exact Or.inl hi
        · exact Or.inr (List.mem_cons.2 (Or.inl hx.symm))
      · exact Or.inr (List.mem_cons_of_mem _ hmm)
    · intro k hk
      obtain ⟨j, hj, hjk⟩ := mergeMax_ge_left i x k hk
      exact le_trans hjk (hbi j hj)
    · intro k hk
      rcases List.mem_cons.1 hk with hx | hxs
      · obtain ⟨j, hj, hjk⟩ := mergeMax_ge_right i x k hx.symm
        exact le_trans hjk (hbi j hj)
      · exact hbl k hxs

/-- Claim C9 (amended) — in every successful `getQuote` result the
aggregated delivery estimate is present exactly when at least one bucket's
selected rate reports a `minDeliveryDays` **and** at least one reports a
`maxDeliveryDays` (a single partially-reported bound leaves the estimate
absent); when present, its bounds are the minimum of the reported
`minDeliveryDays` and the maximum of the reported `maxDeliveryDays`. -/
theorem claim_C9_amended_delivery_estimate (find : String → Option Product)
    (runtime : MarketplaceRuntime) (items : List QuoteItemInput)
    (address : ShippingAddress) (q : QuoteOutput) (calls : List String)
    (h : getQuote find runtime items address = .ok (q, calls)) :
    (q.estimatedDelivery.isSome = true ↔
       ((∃ b ∈ q.providerBreakdown, b.selectedShipping.minDeliveryDays.isSome = true) ∧
        (∃ b ∈ q.providerBreakdown, b.selectedShipping.maxDeliveryDays.isSome = true))) ∧
    (∀ est, q.estimatedDelivery = some est →
       (∃ b ∈ q.providerBreakdown, b.selectedShipping.minDeliveryDays = some est.minDays) ∧
       (∀ b ∈ q.providerBreakdown, ∀ d, b.selectedShipping.minDeliveryDays = some d →
          est.minDays ≤ d) ∧
       (∃ b ∈ q.providerBreakdown, b.selectedShipping.maxDeliveryDays = some est.maxDays) ∧
       (∀ b ∈ q.providerBreakdown, ∀ d, b.selectedShipping.maxDeliveryDays = some d →
          d ≤ est.maxDays)) := by
  unfold getQuote at h
  split at h
  · cases h
  · split at h
    · cases h
    · rename_i acc hacc
      cases h
      obtain ⟨tail, ht, _, hmn, hmx⟩ := quoteBuckets_append runtime address _ _ _ hacc
      have htail : acc.breakdown = tail := by simpa using ht
      have hminNone : acc.minDeliveryDays = none →
          ∀ b ∈ tail, b.selectedShipping.minDeliveryDays = none := by
        intro hn b hb
        have h0 := (foldl_mergeMin_eq_none_iff (selMins tail) none).1 (by rw [← hmn]; exact hn)
        exact h0.2 _ (List.mem_map_of_mem _ hb)
      have hmaxNone : acc.maxDeliveryDays = none →
          ∀ b ∈ tail, b.selectedShipping.maxDeliveryDays = none := by
        intro hn b hb
        have h0 := (foldl_mergeMax_eq_none_iff (selMaxs tail) none).1 (by rw [← hmx]; exact hn)
        exact h0.2 _ (List.mem_map_of_mem _ hb)
      have hminSome : ∀ mn : Nat, acc.minDeliveryDays = some mn →
          (∃ b ∈ tail, b.selectedShipping.minDeliveryDays = some mn) ∧
          ∀ b ∈ tail, ∀ d, b.selectedShipping.minDeliveryDays = some d → mn ≤ d := by
        intro mn hmneq
        have h0 := foldl_mergeMin_min (selMins tail) none mn (by rw [← hmn]; exact hmneq)
        constructor
        · rcases h0.1 with hcontra | hmem
          · cases hcontra
          · obtain ⟨b, hb, hfb⟩ := List.mem_map.1 hmem
            exact ⟨b, hb, hfb⟩
        · intro b hb d hd
          have hmem := List.mem_map_of_mem
            (fun b : ProviderBreakdown => b.selectedShipping.minDeliveryDays) hb
          simp only [hd] at hmem
          exact h0.2.2 d hmem
      have hmaxSome : ∀ mx : Nat, acc.maxDeliveryDays = some mx →
          (∃ b ∈ tail, b.selectedShipping.maxDeliveryDays = some mx) ∧
          ∀ b ∈ tail, ∀ d, b.selectedShipping.maxDeliveryDays = some d → d ≤ mx := by
        intro mx hmxeq
        have h0 := foldl_mergeMax_max (selMaxs tail) none mx (by rw [← hmx]; exact hmxeq)
        constructor
        · rcases h0.1 with hcontra | hmem
          · cases hcontra
          · obtain ⟨b, hb, hfb⟩ := List.mem_map.1 hmem
            exact ⟨b, hb, hfb⟩
        · intro b hb d hd
          have hmem := List.mem_map_of_mem
            (fun b : ProviderBreakdown => b.selectedShipping.maxDeliveryDays) hb
          simp only [hd] at hmem
          exact h0.2.2 d hmem
      dsimp only
      rw [htail]
      constructor
      · cases hmnv : acc.minDeliveryDays with
        | none =>
          simp only [hmnv]
          constructor
          · intro hcontra
            cases hcontra
          · rintro ⟨⟨b, hb, hbs⟩, -⟩
            have := hminNone hmnv b hb
            rw [this] at hbs
            cases hbs
        | some mn =>
          cases hmxv : acc.maxDeliveryDays with
          | none =>
            simp only [hmnv, hmxv]
            constructor
            · intro hcontra
              cases hcontra
            · rintro ⟨-, ⟨b, hb, hbs⟩⟩
              have := hmaxNone hmxv b hb
              rw [this] at hbs
              cases hbs
          | some mx =>
            simp only [hmnv, hmxv]
            constructor
            · intro _
              obtain ⟨⟨b1, hb1, hfb1⟩, -⟩ := hminSome mn hmnv
              obtain ⟨⟨b2, hb2, hfb2⟩, -⟩ := hmaxSome mx hmxv
              exact ⟨⟨b1, hb1, by rw [hfb1]; rfl⟩, ⟨b2, hb2, by rw [hfb2]; rfl⟩⟩
            · intro _
              rfl
      · intro est hest
        cases hmnv : acc.minDeliveryDays with
        | none =>
          rw [hmnv] at hest
          cases hest
        | some mn =>
          cases hmxv : acc.maxDeliveryDays with
          | none =>
            rw [hmnv, hmxv] at hest
            cases hest
          | some mx =>
            rw [hmnv, hmxv] at hest
            cases hest
            obtain ⟨hex1, hbd1⟩ := hminSome mn hmnv
            obtain ⟨hex2, hbd2⟩ := hmaxSome mx hmxv
            exact ⟨hex1, hbd1, hex2, hbd2⟩

/-- A rate reporting only a minimum delivery-day bound. -/
def rateMinOnly : ShippingRate :=
  { id := "r3", name := "Rate 3", rate := 4, currency := "USD"
    minDeliveryDays := some 3, maxDeliveryDays := none }

/-- A gateway quoting only the min-only rate. -/
def minOnlyGateway : ProviderGateway :=
  { quoteOrder := fun _ => .ok { rates := [rateMinOnly], currency := "USD" }
    createOrder := fun _ => .error "n/a"
    cancelOrder := fun _ => .ok () }

/-- Runtime configuring the min-only gateway under `"printful"`. -/
def minOnlyRuntime : MarketplaceRuntime :=
  { getProvider := fun name => if name = "printful" then some minOnlyGateway else none
    getPaymentProvider := fun _ => none }

/-- The quote computed for the printful cart against the min-only gateway. -/
def minOnlyQuote : QuoteOutput :=
  { subtotal := 10, shippingCost := 4, total := 14, currency := "USD"
    providerBreakdown :=
      [{ provider := "printful", itemCount := 1, subtotal := 10
         selectedShipping := rateToOption "printful" rateMinOnly
         availableRates := [rateToOption "printful" rateMinOnly] }]
    estimatedDelivery := none }

/-- Counterexample to claim C9 as stated: a bucket whose selected rate
reports a `minDeliveryDays` (3) but no `maxDeliveryDays` — a day bound was
reported, yet the aggregated delivery estimate is absent, because the
source only constructs the estimate when both the running minimum and the
running maximum are defined. -/
theorem claim_C9_counterexample :
    getQuote printfulFind minOnlyRuntime printfulItems exAddr
      = .ok (minOnlyQuote, ["printful"]) ∧
    (minOnlyQuote.providerBreakdown.map fun b => b.selectedShipping.minDeliveryDays)
      = [some 3] ∧
    minOnlyQuote.estimatedDelivery = none :=
  ⟨by with_unfolding_all rfl, rfl, rfl⟩

/-- Witness for the amended claim C9, at the manual-only quote (where the
estimate is present and equals `[5, 10]`). -/
theorem claim_C9_amended_delivery_estimate_witness :
    getQuote manualFind emptyRuntime manualItems exAddr = .ok (manualQuote, []) ∧
    manualQuote.estimatedDelivery = some ⟨5, 10⟩ ∧
    ((manualQuote.estimatedDelivery.isSome = true ↔
       ((∃ b ∈ manualQuote.providerBreakdown,
           b.selectedShipping.minDeliveryDays.isSome = true) ∧
        (∃ b ∈ manualQuote.providerBreakdown,
           b.selectedShipping.maxDeliveryDays.isSome = true))) ∧
     (∀ est, manualQuote.estimatedDelivery = some est →
       (∃ b ∈ manualQuote.providerBreakdown,
          b.selectedShipping.minDeliveryDays = some est.minDays) ∧
       (∀ b ∈ manualQuote.providerBreakdown,
          ∀ d, b.selectedShipping.minDeliveryDays = some d → est.minDays ≤ d) ∧
       (∃ b ∈ manualQuote.providerBreakdown,
          b.selectedShipping.maxDeliveryDays = some est.maxDays) ∧
       (∀ b ∈ manualQuote.providerBreakdown,
          ∀ d, b.selectedShipping.maxDeliveryDays = some d → d ≤ est.maxDays))) :=
  have h : getQuote manualFind emptyRuntime manualItems exAddr
      = .ok (manualQuote, []) := by with_unfolding_all rfl
  ⟨h, rfl,
   claim_C9_amended_delivery_estimate manualFind emptyRuntime manualItems exAddr
     manualQuote [] h⟩

/-- Claim C10 — in the shared item-resolution loop of `getQuote` and
`createCheckout` (both are defined through `resolveItems` in this file), a
cart item whose `variantId` matches no variant of its resolved product is
not rejected: resolution continues on the remaining items with the item's
unit price fallen back to the product's base price, no variant
`fulfillmentConfig` carried and no variant id recorded. -/
theorem claim_C10_unmatched_variant_not_rejected (find : String → Option Product)
    (item : QuoteItemInput) (rest : List QuoteItemInput) (p : Product) (vid : String)
    (hp : find item.productId = some p)
    (hvid : item.variantId = some vid)
    (hvne : vid ≠ "")
    (hnov : ∀ v ∈ p.variants, v.id ≠ vid) :
    ∀ (s : ℚ) (groups : List (String × List ProviderItemGroup)),
      resolveItems find (item :: rest) s groups =
        resolveItems find rest (s + p.price * (item.quantity : ℚ))
          (insertGroup groups (providerKey p)
            { item := item, productId := p.id, variantId := none
              price := p.price, currency := p.currency, fulfillmentConfig := none
              productTitle := p.title, productDescription := p.description
              productImage := p.images.head?
              fulfillmentProvider := p.fulfillmentProvider }) := by
  have hfind : p.variants.find? (fun v => v.id == vid) = none := by
    apply List.find?_eq_none.2
    intro v hv
    simpa using hnov v hv
  intro s groups
  simp only [resolveItems, hp, hvid, if_neg hvne, hfind]
  rfl

/-- A product with one variant `v1` (price 14), base price 12. -/
def variantProduct : Product :=
  { id := "vp-1", title := "Variant Tee", description := none, price := 12
    currency := "USD", fulfillmentProvider := "manual", images := []
    variants := [{ id := "v1", title := "Small", price := 14, currency := "USD"
                   fulfillmentConfig := none }] }

/-- Catalog holding only `variantProduct`. -/
def variantFind : String → Option Product :=
  fun pid => if pid = "vp-1" then some variantProduct else none

/-- A cart item referencing the nonexistent variant `v2`. -/
def badVariantItem : QuoteItemInput := ⟨"vp-1", some "v2", 1⟩

/-- Witness for claim C10: the item referencing nonexistent variant `v2`
resolves with the base price 12, no variant config, and resolution
continues. -/
theorem claim_C10_unmatched_variant_not_rejected_witness :
    variantFind badVariantItem.productId = some variantProduct ∧
    badVariantItem.variantId = some "v2" ∧
    ("v2" : String) ≠ "" ∧
    variantProduct.variants.all (fun v => decide (v.id ≠ "v2")) = true ∧
    (∀ (s : ℚ) (groups : List (String × List ProviderItemGroup)),
      resolveItems variantFind (badVariantItem :: []) s groups =
        resolveItems variantFind [] (s + variantProduct.price * (1 : ℚ))
          (insertGroup groups (providerKey variantProduct)
            { item := badVariantItem, productId := variantProduct.id, variantId := none
              price := variantProduct.price, currency := variantProduct.currency
              fulfillmentConfig := none, productTitle := variantProduct.title
              productDescription := variantProduct.description
              productImage := variantProduct.images.head?
              fulfillmentProvider := variantProduct.fulfillmentProvider })) ∧
    (resolveItems variantFind [badVariantItem] 0 []).isOk = true :=
  ⟨rfl, rfl, by decide, by decide,
   claim_C10_unmatched_variant_not_rejected variantFind badVariantItem []
     variantProduct "v2" rfl rfl (by decide) (by decide),
   by with_unfolding_all rfl⟩

end MerchStore
